import Mathlib

/-!
# Verification of the Classifier-Responder core (`run_agent`)

Shallow embedding of `src/Sample_Agent/agent/agentf.py`.

Python strings are modelled as lists of Unicode codepoints (`PyStr`), the
`str.lower()` normalisation as a per-codepoint ASCII case fold (the only
characters the triggers use are ASCII), and the Python substring operator
`needle in hay` as `List.IsInfix` on codepoint lists.  The response
dictionaries of the source become a `Response` structure with the three
fields of the source dictionaries, holding the exact string contents of
`agentf.py`.
-/

namespace AgentF

/-- A Python string, as the list of Unicode codepoints of its characters. -/
abbrev PyStr := List Nat

/-- Embed a Lean string literal as a codepoint list, for concrete inputs. -/
def ofString (s : String) : PyStr := s.data.map Char.toNat

/-- One codepoint of Python `str.lower()`: ASCII uppercase letters are
folded to lowercase, every other codepoint is left unchanged. -/
def lowerChar (c : Nat) : Nat := if 65 ≤ c ∧ c ≤ 90 then c + 32 else c

/-- `input_text.lower()` of the source: fold every character. -/
def lowerStr (s : PyStr) : PyStr := s.map lowerChar

/-- The response dictionaries of `agentf.py`, as a structure with their
three keys `message`, `recommendations` and `passenger_message`. -/
structure Response where
  message : String
  recommendations : List String
  passenger_message : String
deriving DecidableEq

/-- The dictionary returned by the `"delay"`/`"delayed"` branch
(`agentf.py` lines 13-23). -/
def delayResponse : Response :=
  { message := "🛫 We sincerely apologize for the flight delay. Here are your enhanced options:"
    recommendations :=
      [ "✅ Check with gate agent for updated departure time"
      , "🔄 Consider rebooking on next available flight"
      , "🍽️ Request meal vouchers if delay exceeds 3 hours"
      , "🏨 Contact customer service for accommodation if overnight delay"
      , "📱 Use our mobile app for real-time updates" ]
    passenger_message := "We understand your frustration and are working to get you to your destination as quickly as possible. [CI/CD Test v2.1]" }

/-- The dictionary returned by the `"cancel"` branch
(`agentf.py` lines 25-35). -/
def cancellationResponse : Response :=
  { message := "✈️ Flight cancellation assistance - Enhanced Support:"
    recommendations :=
      [ "🔄 Automatic rebooking on next available flight"
      , "💰 Full refund if you choose not to travel"
      , "🏨 Hotel accommodation for overnight delays"
      , "🍽️ Meal vouchers and transportation"
      , "📞 Priority customer service line access" ]
    passenger_message := "We apologize for the inconvenience. Our enhanced support team is ready to assist with rebooking or refunds. [Test Deployment v2.1]" }

/-- The dictionary returned by the `"weather"` branch
(`agentf.py` lines 37-47). -/
def weatherResponse : Response :=
  { message := "🌦️ Weather-related flight disruption guidance - Updated:"
    recommendations :=
      [ "🌤️ Monitor weather conditions at destination"
      , "🔄 Consider flexible rebooking options"
      , "📱 Check airline app for real-time updates"
      , "⏰ Prepare for possible extended delays"
      , "🛡️ Travel insurance claim assistance available" ]
    passenger_message := "Weather safety is our priority. We\x27ll resume operations as soon as conditions improve. [Enhanced Response v2.1]" }

/-- The dictionary returned by the fallback `else` branch
(`agentf.py` lines 49-59). -/
def generalResponse : Response :=
  { message := "🎯 General flight assistance - Enhanced Service:"
    recommendations :=
      [ "📊 Check flight status regularly"
      , "⏰ Arrive at airport with extra time"
      , "📋 Keep important documents handy"
      , "📱 Download airline mobile app for updates"
      , "🎧 24/7 customer support available" ]
    passenger_message := "Thank you for flying with us. We\x27re here to help make your journey smooth. [CI/CD Test Successful v2.1]" }

/-- The trigger keyword `"delay"`. -/
def delayKw : PyStr := ofString "delay"

/-- The trigger keyword `"delayed"`. -/
def delayedKw : PyStr := ofString "delayed"

/-- The trigger keyword `"cancel"`. -/
def cancelKw : PyStr := ofString "cancel"

/-- The trigger keyword `"weather"`. -/
def weatherKw : PyStr := ofString "weather"

/-- `run_agent` of `agentf.py`: lowercase the input, then first-match-wins
over the ordered trigger chain delay/delayed, cancel, weather, with the
general response as fallback. -/
def run_agent (input_text : PyStr) : Response :=
  let input_lower := lowerStr input_text
  if delayKw <:+: input_lower ∨ delayedKw <:+: input_lower then
    delayResponse
  else if cancelKw <:+: input_lower then
    cancellationResponse
  else if weatherKw <:+: input_lower then
    weatherResponse
  else
    generalResponse

/-- The variant of `run_agent` whose Delay branch tests only for the
substring `"delay"` (dropping the redundant `"delayed"` test), for the
refinement claim about the trigger set. -/
def runAgentDelayOnly (input_text : PyStr) : Response :=
  let input_lower := lowerStr input_text
  if delayKw <:+: input_lower then
    delayResponse
  else if cancelKw <:+: input_lower then
    cancellationResponse
  else if weatherKw <:+: input_lower then
    weatherResponse
  else
    generalResponse

/-! ## Helper lemmas -/

theorem lowerChar_idem (c : Nat) : lowerChar (lowerChar c) = lowerChar c := by
  unfold lowerChar
  split_ifs <;> omega

theorem lowerStr_idem (s : PyStr) : lowerStr (lowerStr s) = lowerStr s := by
  induction s with
  | nil => rfl
  | cons a as ih => simp [lowerStr, lowerChar_idem] at *

theorem runAgentCases (s : PyStr) :
    run_agent s = delayResponse ∨ run_agent s = cancellationResponse ∨
    run_agent s = weatherResponse ∨ run_agent s = generalResponse := by
  simp only [run_agent]
  split_ifs <;> tauto

theorem delayKw_infix_delayedKw : delayKw <:+: delayedKw := by decide

/-! ## Claim theorems -/

/-- C1: for every input whose lowercased form contains `"delay"` or
`"delayed"`, `run_agent` returns the Delay Response, regardless of any
co-occurring keywords. -/
theorem run_agent_delay_priority (s : PyStr)
    (h : delayKw <:+: lowerStr s ∨ delayedKw <:+: lowerStr s) :
    run_agent s = delayResponse := by
  simp only [run_agent]
  rw [if_pos h]

/-- C1 witness: an input containing both `"delay"` and `"cancel"` (and
`"weather"` too) yields the Delay Response. -/
theorem run_agent_delay_priority_witness :
    run_agent (ofString "the weather delay made me cancel") = delayResponse :=
  run_agent_delay_priority _ (Or.inl (by decide))

/-- C2: for every input whose lowercased form contains `"cancel"` but
neither `"delay"` nor `"delayed"`, `run_agent` returns the Cancellation
Response. -/
theorem run_agent_cancel_branch (s : PyStr)
    (hc : cancelKw <:+: lowerStr s)
    (hd : ¬ delayKw <:+: lowerStr s)
    (hdd : ¬ delayedKw <:+: lowerStr s) :
    run_agent s = cancellationResponse := by
  simp only [run_agent]
  rw [if_neg (by tauto), if_pos hc]

/-- C2 witness: `"I need to cancel due to weather"` yields the Cancellation
Response (cancel is checked before weather). -/
theorem run_agent_cancel_branch_witness :
    run_agent (ofString "I need to cancel due to weather") = cancellationResponse :=
  run_agent_cancel_branch _ (by decide) (by decide) (by decide)

/-- C3: for every input whose lowercased form contains `"weather"` but none
of `"delay"`, `"delayed"`, `"cancel"`, `run_agent` returns the Weather
Response. -/
theorem run_agent_weather_branch (s : PyStr)
    (hw : weatherKw <:+: lowerStr s)
    (hd : ¬ delayKw <:+: lowerStr s)
    (hdd : ¬ delayedKw <:+: lowerStr s)
    (hc : ¬ cancelKw <:+: lowerStr s) :
    run_agent s = weatherResponse := by
  simp only [run_agent]
  rw [if_neg (by tauto), if_neg hc, if_pos hw]

/-- C3 witness: an input mentioning only weather yields the Weather
Response. -/
theorem run_agent_weather_branch_witness :
    run_agent (ofString "How is the weather today?") = weatherResponse :=
  run_agent_weather_branch _ (by decide) (by decide) (by decide) (by decide)

/-- C4: for every input whose lowercased form contains none of the trigger
keywords, `run_agent` returns the General Response: the fallback matches
exactly when no other category does, so selection is total. -/
theorem run_agent_general_fallback (s : PyStr)
    (hd : ¬ delayKw <:+: lowerStr s)
    (hdd : ¬ delayedKw <:+: lowerStr s)
    (hc : ¬ cancelKw <:+: lowerStr s)
    (hw : ¬ weatherKw <:+: lowerStr s) :
    run_agent s = generalResponse := by
  simp only [run_agent]
  rw [if_neg (by tauto), if_neg hc, if_neg hw]

/-- C4 witness: the empty string yields the General Response. -/
theorem run_agent_general_fallback_witness :
    run_agent (ofString "") = generalResponse :=
  run_agent_general_fallback _ (by decide) (by decide) (by decide) (by decide)

/-- C5: `run_agent` is case-insensitive — every input produces the same
Response as its lowercased form — and `"DELAY"`, `"Delay"`, `"dElAy"` all
produce the identical Delay Response. -/
theorem run_agent_case_insensitive :
    (∀ s : PyStr, run_agent s = run_agent (lowerStr s)) ∧
    run_agent (ofString "DELAY") = delayResponse ∧
    run_agent (ofString "Delay") = delayResponse ∧
    run_agent (ofString "dElAy") = delayResponse := by
  refine ⟨fun s => ?_, by decide, by decide, by decide⟩
  simp only [run_agent]
  rw [lowerStr_idem]

/-- C6: `run_agent` is total with no failure mode — every input, of any
content, maps to one of the four valid Responses; the embedding returns a
`Response` (not an `Option`), so no exceptional path exists. -/
theorem run_agent_total (s : PyStr) :
    run_agent s = delayResponse ∨ run_agent s = cancellationResponse ∨
    run_agent s = weatherResponse ∨ run_agent s = generalResponse :=
  runAgentCases s

/-- C7: every Response returned by `run_agent` carries exactly the three
fields of the `Response` structure, with a recommendations list of 4-5
strings in preserved order; for `"My flight is delayed, what do I do?"`
the list has 5 elements and starts with the gate-agent-check
recommendation. -/
theorem run_agent_response_shape :
    (∀ s : PyStr,
      4 ≤ (run_agent s).recommendations.length ∧
      (run_agent s).recommendations.length ≤ 5) ∧
    (run_agent (ofString "My flight is delayed, what do I do?")).recommendations.length = 5 ∧
    (run_agent (ofString "My flight is delayed, what do I do?")).recommendations.head? =
      some "✅ Check with gate agent for updated departure time" := by
  refine ⟨fun s => ?_, by decide, by decide⟩
  rcases runAgentCases s with h | h | h | h <;> rw [h] <;> exact ⟨by decide, by decide⟩

/-- C8: `run_agent` is deterministic and pure — it is embedded as a pure
function of its input alone, so two calls with the same input string yield
structurally identical Responses. -/
theorem run_agent_deterministic (s t : PyStr) (h : s = t) :
    run_agent s = run_agent t := by
  rw [h]

/-- C8 witness: two calls on the concrete input `"flight status"` agree. -/
theorem run_agent_deterministic_witness :
    run_agent (ofString "flight status") = run_agent (ofString "flight status") :=
  run_agent_deterministic (ofString "flight status") (ofString "flight status") rfl

/-- C9: the `"delayed"` trigger is redundant — `"delayed"` occurring in a
string implies `"delay"` occurs in it — so `run_agent` is extensionally
equal to the variant whose Delay branch tests only for `"delay"`. -/
theorem delayed_trigger_redundant :
    (∀ s : PyStr, delayedKw <:+: s → delayKw <:+: s) ∧
    (∀ s : PyStr, run_agent s = runAgentDelayOnly s) := by
  have key : ∀ s : PyStr, delayedKw <:+: s → delayKw <:+: s :=
    fun s h => List.IsInfix.trans delayKw_infix_delayedKw h
  refine ⟨key, fun s => ?_⟩
  simp only [run_agent, runAgentDelayOnly]
  by_cases hd : delayKw <:+: lowerStr s
  · rw [if_pos (Or.inl hd), if_pos hd]
  · rw [if_neg fun h => h.elim hd fun hdd => hd (key _ hdd), if_neg hd]

/-- C9 witness: applied to the concrete string `"delayed"`, the redundancy
implication yields that it contains `"delay"`. -/
theorem delayed_trigger_redundant_witness :
    delayKw <:+: ofString "delayed" :=
  delayed_trigger_redundant.1 (ofString "delayed") (by decide)

/-- C10: for every input, the recommendations list has exactly 5 elements,
and the Response is always one of the four fixed template values. -/
theorem run_agent_fixed_templates (s : PyStr) :
    (run_agent s).recommendations.length = 5 ∧
    (run_agent s = delayResponse ∨ run_agent s = cancellationResponse ∨
     run_agent s = weatherResponse ∨ run_agent s = generalResponse) := by
  refine ⟨?_, runAgentCases s⟩
  rcases runAgentCases s with h | h | h | h <;> rw [h] <;> decide

end AgentF
